import Mathlib

/-!
Shallow embedding of the studyGen-RAG backend (src/backend/app.py and
src/backend/ai_service.py) and proofs about it.

Python strings are modelled by Lean `String`, with the string processing
carried out on the underlying character lists (Lean's own `String.trim`,
`String.splitOn` and friends are byte-position based and do not reduce in
the kernel): `str.strip()` is modelled by `pyStrip`, `str.split` on a
newline by `splitLines`, slicing `s[2:]` by `List.drop 2`,
`str.lstrip(chars)` by `pyLstrip`, `str.startswith` by `List.isPrefixOf`,
and Python truthiness of a string by the string being nonempty.  `uuid.uuid4()`
is modelled by a fresh-identifier supply: a natural-number counter threaded
through the code, each draw yielding the current value and bumping the
counter (distinct draws give distinct identifiers).  External collaborators
(the text splitter, FAISS, the LLM, the PDF text extractor) are parameters
of the model, bundled in a `Collab` structure; a vector index is modelled
abstractly as the list of chunk strings it was built from.  JSON values
produced by `jsonify` are modelled by the inductive type `JVal`.
-/

namespace StudyGen

/-- JSON values as produced by flask's jsonify. -/
inductive JVal where
  | str : String → JVal
  | arr : List JVal → JVal
  | obj : List (String × JVal) → JVal
deriving Repr

/-- A flashcard record {id, question, answer}; the uuid4 id is modelled as a
natural number drawn from the fresh-identifier supply. -/
structure Flashcard where
  id : Nat
  question : String
  answer : String
deriving DecidableEq, Repr

/-- Study materials as returned by AIService.generate_study_materials. -/
structure StudyMaterials where
  summary : String
  notes : List String
  flashcards : List Flashcard
deriving DecidableEq, Repr

/-- Whitespace characters stripped by Python str.strip() (the ASCII ones:
space, tab, newline, carriage return, vertical tab, form feed). -/
def pyIsSpace (c : Char) : Bool :=
  c = ' ' || c = '\t' || c = '\n' || c = '\r' || c = '\x0b' || c = '\x0c'

/-- Python str.strip() on a string's character list: remove leading and
trailing whitespace. -/
def pyStrip (l : List Char) : List Char :=
  ((l.dropWhile pyIsSpace).reverse.dropWhile pyIsSpace).reverse

/-- Python str.split on a single newline: split the character list at each
newline character; the empty string yields one empty piece. -/
def splitLines : List Char → List (List Char)
  | [] => [[]]
  | c :: cs =>
    if c = '\n' then [] :: splitLines cs
    else
      match splitLines cs with
      | [] => [[c]]
      | h :: t => (c :: h) :: t

/-- Python str.lstrip(chars): drop leading characters belonging to the set. -/
def pyLstrip (cs : List Char) (l : List Char) : List Char :=
  l.dropWhile (fun c => c ∈ cs)

/-- The exact character set of the lstrip call in generate_notes
(ai_service.py line 134).  The source file contains the three characters
U+00E2, U+20AC, U+00A2 (a mojibake rendering of the bullet U+2022), then
the hyphen, asterisk, the ten digits, the period and the space. -/
def noteStripChars : List Char :=
  [Char.ofNat 0xE2, Char.ofNat 0x20AC, Char.ofNat 0xA2,
   '-', '*', '1', '2', '3', '4', '5', '6', '7', '8', '9', '0', '.', ' ']

/-- The note-parsing loop of AIService.generate_notes (ai_service.py lines
127-138) applied to the model reply: split the stripped reply on newlines,
strip each line, lstrip the bullet/number characters, keep cleaned lines
that are truthy and longer than 10 characters, and take the first 10. -/
def parse_notes (result : String) : List String :=
  let lines := splitLines (pyStrip result.data)
  (lines.foldl
    (fun notes line =>
      let clean_line := pyLstrip noteStripChars (pyStrip line)
      if clean_line ≠ [] ∧ clean_line.length > 10 then notes ++ [(⟨clean_line⟩ : String)]
      else notes)
    []).take 10

/-- One step of the flashcard-parsing loop of AIService.generate_flashcards
(ai_service.py lines 182-201).  State: (flashcards so far, current_question,
current_answer, next fresh id). -/
def flashStep (st : List Flashcard × List Char × List Char × Nat)
    (line0 : List Char) : List Flashcard × List Char × List Char × Nat :=
  let (cards, q, a, n) := st
  let line := pyStrip line0
  if ['Q', ':'].isPrefixOf line then
    if q ≠ [] ∧ a ≠ [] then
      (cards ++ [⟨n, ⟨q⟩, ⟨a⟩⟩], pyStrip (line.drop 2), [], n + 1)
    else
      (cards, pyStrip (line.drop 2), [], n)
  else if ['A', ':'].isPrefixOf line then
    (cards, q, pyStrip (line.drop 2), n)
  else if line ≠ [] ∧ a ≠ [] then
    (cards, q, a ++ ' ' :: line, n)
  else
    (cards, q, a, n)

/-- After the loop, the last flashcard is appended when both question and
answer are truthy (ai_service.py lines 203-209). -/
def flashFinish (st : List Flashcard × List Char × List Char × Nat) :
    List Flashcard :=
  let (cards, q, a, n) := st
  if q ≠ [] ∧ a ≠ [] then cards ++ [⟨n, ⟨q⟩, ⟨a⟩⟩] else cards

/-- The flashcard-parsing code of AIService.generate_flashcards
(ai_service.py lines 176-211) applied to the model reply, with the fresh-id
supply starting at n0: run the loop over the stripped reply split on
newlines, append the pending record, and truncate to 8 records. -/
def parse_flashcards (result : String) (n0 : Nat) : List Flashcard :=
  let lines := splitLines (pyStrip result.data)
  (flashFinish (lines.foldl flashStep ([], [], [], n0))).take 8

/-- Specification-side restatement of the flashcard parse, written as a
structural recursion over the lines, following the claim text: a stripped
line beginning with Q: starts a new record whose question is the remainder
stripped; a stripped line beginning with A: sets the current answer to its
remainder stripped; any later non-empty line while an answer is in progress
is appended to the answer with a single space; a record is emitted only when
both question and answer are non-empty. -/
def specGo : List (List Char) → List Char → List Char → Nat → List Flashcard
  | [], q, a, n => if q ≠ [] ∧ a ≠ [] then [⟨n, ⟨q⟩, ⟨a⟩⟩] else []
  | l :: ls, q, a, n =>
    let line := pyStrip l
    if ['Q', ':'].isPrefixOf line then
      if q ≠ [] ∧ a ≠ [] then
        ⟨n, ⟨q⟩, ⟨a⟩⟩ :: specGo ls (pyStrip (line.drop 2)) [] (n + 1)
      else
        specGo ls (pyStrip (line.drop 2)) [] n
    else if ['A', ':'].isPrefixOf line then
      specGo ls q (pyStrip (line.drop 2)) n
    else if line ≠ [] ∧ a ≠ [] then
      specGo ls q (a ++ ' ' :: line) n
    else
      specGo ls q a n

/-- Specification-side flashcard parse: records in order of appearance,
truncated to at most 8. -/
def specFlashcards (result : String) (n0 : Nat) : List Flashcard :=
  (specGo (splitLines (pyStrip result.data)) [] [] n0).take 8

/-- A vector index is modelled abstractly as the list of chunk strings it
was built from (FAISS internals are an external collaborator). -/
abbrev Index := List String

/-- Identifies which templated prompt an LLM call carries.  summary stands
for the fixed template at ai_service.py lines 81-90 (its .format call has no
placeholder to fill, so the template is passed unchanged), notes for lines
111-123, flashcards for lines 156-171, and userQuery for the raw user text
passed to the chain in query_response (line 273). -/
inductive Prompt where
  | summary : Prompt
  | notes : Prompt
  | flashcards : Prompt
  | userQuery : String → Prompt
deriving DecidableEq, Repr

/-- A record of one call into an external collaborator, used to state that
the chunking and retrieval parameters are constants: split logs the
chunk_size and chunk_overlap handed to the text splitter, retrieve logs the
k handed to as_retriever. -/
inductive Call where
  | split : Nat → Nat → Call
  | retrieve : Nat → Call
deriving DecidableEq, Repr

/-- The external collaborators of the AI service, as deterministic
functions: the recursive character text splitter (parameters chunk_size and
chunk_overlap), FAISS.from_texts (which may fail), the chat model invoked
through a RetrievalQA chain with retrieval parameter k (which may fail),
and the PDF text extractor (which may fail). -/
structure Collab where
  split_text : Nat → Nat → String → List String
  from_texts : List String → Except String Index
  llm : Nat → Prompt → Except String String
  extract_text : String → Except String String

/-- The mutable state of the AIService object: the vectorStore attribute,
which is unset (none) until the first successful create_vector_store. -/
structure AIService where
  vectorStore : Option Index
deriving DecidableEq, Repr

/-- AIService.create_vector_store (ai_service.py lines 43-66): split the
text with the splitter configured with chunk_size 1000 and chunk_overlap
200 (lines 37-41), build the FAISS index, store it in self.vectorStore and
return it; on failure the exception propagates and self.vectorStore is
left unchanged. -/
def create_vector_store (c : Collab) (text : String) (s : AIService) :
    Except String Index × AIService × List Call :=
  let chunks := c.split_text 1000 200 text
  match c.from_texts chunks with
  | .ok vs => (.ok vs, { vectorStore := some vs }, [.split 1000 200])
  | .error e => (.error e, s, [.split 1000 200])

/-- AIService.generate_summary (ai_service.py lines 69-97): rebuild the
vector store from the text, run the summary prompt through a RetrievalQA
chain with k = 3, and return the stripped reply; any failure is caught and
the fixed fallback string is returned. -/
def generate_summary (c : Collab) (text : String) (s : AIService) :
    String × AIService × List Call :=
  let v := create_vector_store c text s
  match v.1 with
  | .ok _ =>
    match c.llm 3 .summary with
    | .ok r => ((⟨pyStrip r.data⟩ : String), v.2.1, v.2.2 ++ [.retrieve 3])
    | .error _ =>
      ("Failed to generate summary. Please try again.", v.2.1, v.2.2 ++ [.retrieve 3])
  | .error _ =>
    ("Failed to generate summary. Please try again.", v.2.1, v.2.2)

/-- AIService.generate_notes (ai_service.py lines 100-142): read
self.vectorStore (an AttributeError when it is unset is caught like any
other failure), run the notes prompt with k = 4, and parse the reply; any
failure yields the fixed fallback list. -/
def generate_notes (c : Collab) (_text : String) (s : AIService) :
    List String × AIService × List Call :=
  match s.vectorStore with
  | none => (["Failed to generate notes. Please try again."], s, [])
  | some _ =>
    match c.llm 4 .notes with
    | .ok r => (parse_notes r, s, [.retrieve 4])
    | .error _ =>
      (["Failed to generate notes. Please try again."], s, [.retrieve 4])

/-- AIService.generate_flashcards (ai_service.py lines 145-219): read
self.vectorStore, run the flashcards prompt with k = 4, and parse the
reply with the fresh-id supply starting at n; any failure yields the fixed
fallback card (whose id is also drawn from the supply). -/
def generate_flashcards (c : Collab) (_text : String) (s : AIService) (n : Nat) :
    List Flashcard × AIService × List Call :=
  match s.vectorStore with
  | none =>
    ([⟨n, "Error generating flashcards", "Please try again with a different document."⟩], s, [])
  | some _ =>
    match c.llm 4 .flashcards with
    | .ok r => (parse_flashcards r n, s, [.retrieve 4])
    | .error _ =>
      ([⟨n, "Error generating flashcards", "Please try again with a different document."⟩], s,
        [.retrieve 4])

/-- AIService.generate_study_materials (ai_service.py lines 222-260):
create the vector store from the text, then generate summary (which
recreates the store from the same text), notes and flashcards; a failure
escaping any step is caught and the fixed fallback materials returned.
Only create_vector_store can let a failure escape (the three generators
each catch their own), so the fallback is taken exactly when the initial
create_vector_store fails. -/
def generate_study_materials (c : Collab) (text : String) (s : AIService) (n : Nat) :
    StudyMaterials × AIService × List Call :=
  let v := create_vector_store c text s
  match v.1 with
  | .error _ =>
    ({ summary := "Failed to generate summary.",
       notes := ["Failed to generate notes."],
       flashcards := [⟨n, "Error occurred", "Please try again."⟩] }, v.2.1, v.2.2)
  | .ok _ =>
    let g1 := generate_summary c text v.2.1
    let g2 := generate_notes c text g1.2.1
    let g3 := generate_flashcards c text g2.2.1 n
    (⟨g1.1, g2.1, g3.1⟩, g3.2.1, v.2.2 ++ g1.2.2 ++ g2.2.2 ++ g3.2.2)

/-- AIService.query_response (ai_service.py lines 262-281): read
self.vectorStore and call the chain on the user text with k = 4; the chain
call returns the dict produced by RetrievalQA.__call__.  Any failure
(including the AttributeError when vectorStore is unset) is caught and a
one-record fallback list with a fresh id and the fixed message is
returned. -/
def query_response (c : Collab) (text : String) (s : AIService) (n : Nat) :
    JVal × AIService × List Call :=
  match s.vectorStore with
  | none =>
    (.arr [.obj [("id", .str (toString n)), ("message", .str "Something went wrong")]], s, [])
  | some _ =>
    match c.llm 4 (.userQuery text) with
    | .ok r => (.obj [("query", .str text), ("result", .str r)], s, [.retrieve 4])
    | .error _ =>
      (.arr [.obj [("id", .str (toString n)), ("message", .str "Something went wrong")]], s,
        [.retrieve 4])

/-- app.py line 21: 4MB upload limit. -/
def MAX_CONTENT_LENGTH : Nat := 4 * 1024 * 1024

/-- A jsonify({'error': msg}) body. -/
def errBody (msg : String) : JVal := .obj [("error", .str msg)]

/-- The characters after the last dot of the list, or none when no dot
occurs: Python filename.rsplit(Chr(46), 1)[1] guarded by the dot-membership
test. -/
def extAfterLastDot : List Char → Option (List Char)
  | [] => none
  | c :: cs =>
    match extAfterLastDot cs with
    | some e => some e
    | none => if c = '.' then some cs else none

/-- app.py lines 33-34: allowed_file, with ALLOWED_EXTENSIONS = {pdf}: the
filename contains a dot and the lowercased text after the last dot is
pdf. -/
def allowed_file (filename : String) : Bool :=
  match extAfterLastDot filename.data with
  | some e => e.map Char.toLower == ['p', 'd', 'f']
  | none => false

/-- Claim-side reading of the extension check: the filename,
case-insensitively, ends in the four characters dot p d f. -/
def endsInPdf (filename : String) : Prop :=
  ['.', 'p', 'd', 'f'] <:+ filename.data.map Char.toLower

instance (filename : String) : Decidable (endsInPdf filename) := by
  unfold endsInPdf
  infer_instance

/-- JSON serialization of the study-materials dict built at ai_service.py
lines 241-245 and passed to jsonify at app.py line 80; each flashcard dict
has the keys id, question and answer, the id already a string in the code
(str(uuid.uuid4())). -/
def materialsToJson (m : StudyMaterials) : JVal :=
  .obj [("summary", .str m.summary),
        ("notes", .arr (m.notes.map JVal.str)),
        ("flashcards", .arr (m.flashcards.map (fun f =>
          JVal.obj [("id", .str (toString f.id)),
                    ("question", .str f.question),
                    ("answer", .str f.answer)])))]

/-- The parts of a POST /api/process-pdf request the handler looks at:
the request body size, whether the multipart form has a pdf file part, and
that part's filename. -/
structure PdfRequest where
  contentLength : Nat
  hasPdfPart : Bool
  filename : String
deriving DecidableEq, Repr

/-- Per-request environment of the handler: the collaborators, the unique
temporary filepath chosen for the upload (uuid4-prefixed, so fresh), and
the start of the fresh-id supply for this request. -/
structure HandlerEnv where
  collab : Collab
  filepath : String
  idStart : Nat

/-- The process_pdf handler (app.py lines 40-98) together with the
RequestEntityTooLarge error handler (lines 117-119).  The file system of
the upload directory is modelled as the list of stored file paths; saving
appends, os.remove erases.  Flask raises RequestEntityTooLarge while
parsing the form of an oversized body, before any of the handler's checks
run; the handler re-raises it (line 95) and the registered error handler
produces the 413 response.  Returns (status, body), the service state and
the resulting file list. -/
def process_pdf (env : HandlerEnv) (req : PdfRequest) (s : AIService)
    (fs : List String) : (Nat × JVal) × AIService × List String :=
  if req.contentLength > MAX_CONTENT_LENGTH then
    ((413, errBody "File too large. Maximum size is 4MB"), s, fs)
  else if ¬ req.hasPdfPart then
    ((400, errBody "No file provided"), s, fs)
  else if req.filename = "" then
    ((400, errBody "No file selected"), s, fs)
  else if ¬ allowed_file req.filename then
    ((400, errBody "Only PDF files are allowed"), s, fs)
  else
    let fs1 := fs ++ [env.filepath]
    match env.collab.extract_text env.filepath with
    | .error e =>
      ((500, errBody ("Failed to process PDF: " ++ e)), s, fs1.erase env.filepath)
    | .ok text =>
      if pyStrip text.data = [] then
        ((400, errBody "No text could be extracted from the PDF"), s,
          fs1.erase env.filepath)
      else
        let r := generate_study_materials env.collab text s env.idStart
        ((200, materialsToJson r.1), r.2.1, fs1.erase env.filepath)

/-- The parts of a POST /api/query request the handler looks at: whether
the JSON body exists and has a message key, and that message. -/
structure QueryRequest where
  hasMessage : Bool
  message : String
deriving DecidableEq, Repr

/-- The query_pdf handler (app.py lines 101-114): validate the body, call
query_response and wrap its result as the response field of a 200 reply. -/
def query_pdf (c : Collab) (req : QueryRequest) (s : AIService) (n : Nat) :
    (Nat × JVal) × AIService :=
  if ¬ req.hasMessage then
    ((400, errBody "Message is required"), s)
  else
    let r := query_response c req.message s n
    ((200, .obj [("response", r.1)]), r.2.1)

/-- A JSON body contains an error key at top level. -/
def hasErrorKey : JVal → Bool
  | .obj l => l.any (fun p => p.1 == "error")
  | _ => false

/-- Concrete collaborators on which every external call succeeds; the LLM
always replies with one well-formed flashcard block. -/
def testCollab : Collab where
  split_text := fun _ _ text => [text]
  from_texts := fun chunks => .ok chunks
  llm := fun _ _ => .ok "Q: q\nA: a"
  extract_text := fun _ => .ok "hello world content"

/-- Concrete collaborators on which every external call fails. -/
def failCollab : Collab where
  split_text := fun _ _ text => [text]
  from_texts := fun _ => .error "embedding service down"
  llm := fun _ _ => .error "model API error"
  extract_text := fun _ => .error "PDF read error"

/-- Handler environment built on testCollab. -/
def testEnv : HandlerEnv where
  collab := testCollab
  filepath := "uploads/tmp.pdf"
  idStart := 0

/-- Handler environment built on failCollab. -/
def failEnv : HandlerEnv where
  collab := failCollab
  filepath := "uploads/tmp.pdf"
  idStart := 0

/-! Helper lemmas about the flashcard parse. -/

lemma flashFinish_foldl (ls : List (List Char)) :
    ∀ (cards : List Flashcard) (q a : List Char) (n : Nat),
      flashFinish (ls.foldl flashStep (cards, q, a, n)) = cards ++ specGo ls q a n := by
  induction ls with
  | nil =>
    intro cards q a n
    simp only [List.foldl_nil, flashFinish, specGo]
    split_ifs with h
    · rfl
    · simp
  | cons l ls ih =>
    intro cards q a n
    simp only [List.foldl_cons, flashStep, specGo]
    split_ifs with h1 h2 h3 h4
    · rw [ih]
      simp
    · rw [ih]
    · rw [ih]
    · rw [ih]
    · rw [ih]

lemma parse_flashcards_eq_spec (r : String) (n : Nat) :
    parse_flashcards r n = specFlashcards r n := by
  show (flashFinish ((splitLines (pyStrip r.data)).foldl flashStep ([], [], [], n))).take 8 = _
  rw [flashFinish_foldl]
  simp [specFlashcards]

lemma specGo_id_ge : ∀ (ls : List (List Char)) (q a : List Char) (n : Nat),
    ∀ f ∈ specGo ls q a n, n ≤ f.id := by
  intro ls
  induction ls with
  | nil =>
    intro q a n f hf
    simp only [specGo] at hf
    split_ifs at hf with h
    · simp only [List.mem_singleton] at hf
      subst hf
      exact Nat.le_refl n
    · simp at hf
  | cons l ls ih =>
    intro q a n f hf
    simp only [specGo] at hf
    split_ifs at hf with h1 h2 h3 h4
    · rcases List.mem_cons.mp hf with h | h
      · subst h
        exact Nat.le_refl n
      · exact Nat.le_of_succ_le (ih _ _ _ f h)
    · exact ih _ _ _ f hf
    · exact ih _ _ _ f hf
    · exact ih _ _ _ f hf
    · exact ih _ _ _ f hf

lemma specGo_pairwise : ∀ (ls : List (List Char)) (q a : List Char) (n : Nat),
    (specGo ls q a n).Pairwise (fun f g => f.id < g.id) := by
  intro ls
  induction ls with
  | nil =>
    intro q a n
    simp only [specGo]
    split_ifs with h
    · exact List.pairwise_singleton _ _
    · exact List.Pairwise.nil
  | cons l ls ih =>
    intro q a n
    simp only [specGo]
    split_ifs with h1 h2 h3 h4
    · exact List.Pairwise.cons
        (fun g hg => Nat.lt_of_succ_le (specGo_id_ge ls _ _ (n + 1) g hg)) (ih _ _ _)
    · exact ih _ _ _
    · exact ih _ _ _
    · exact ih _ _ _
    · exact ih _ _ _

lemma string_mk_ne_empty {l : List Char} (h : l ≠ []) : (⟨l⟩ : String) ≠ "" := by
  intro hc
  exact h (by simpa [String.ext_iff] using hc)

lemma specGo_qa_nonempty : ∀ (ls : List (List Char)) (q a : List Char) (n : Nat),
    ∀ f ∈ specGo ls q a n, f.question ≠ "" ∧ f.answer ≠ "" := by
  intro ls
  induction ls with
  | nil =>
    intro q a n f hf
    simp only [specGo] at hf
    split_ifs at hf with h
    · simp only [List.mem_singleton] at hf
      subst hf
      exact ⟨string_mk_ne_empty h.1, string_mk_ne_empty h.2⟩
    · simp at hf
  | cons l ls ih =>
    intro q a n f hf
    simp only [specGo] at hf
    split_ifs at hf with h1 h2 h3 h4
    · rcases List.mem_cons.mp hf with h | h
      · subst h
        exact ⟨string_mk_ne_empty h2.1, string_mk_ne_empty h2.2⟩
      · exact ih _ _ _ f h
    · exact ih _ _ _ f hf
    · exact ih _ _ _ f hf
    · exact ih _ _ _ f hf
    · exact ih _ _ _ f hf

/-! Helper lemmas about the filename extension check and the file list. -/

lemma extAfterLastDot_suffix : ∀ (l e : List Char), extAfterLastDot l = some e →
    ('.' :: e) <:+ l := by
  intro l
  induction l with
  | nil =>
    intro e h
    simp [extAfterLastDot] at h
  | cons c cs ih =>
    intro e h
    simp only [extAfterLastDot] at h
    cases hx : extAfterLastDot cs with
    | some e2 =>
      rw [hx] at h
      injection h with h
      subst h
      exact (ih e2 hx).trans (List.suffix_cons c cs)
    | none =>
      rw [hx] at h
      split_ifs at h with hc
      · injection h with h
        subst h
        subst hc
        exact List.suffix_refl _

lemma allowed_file_endsInPdf (f : String) (h : allowed_file f = true) :
    endsInPdf f := by
  unfold allowed_file at h
  cases hx : extAfterLastDot f.data with
  | none => rw [hx] at h; simp at h
  | some e =>
    rw [hx] at h
    have he : e.map Char.toLower = ['p', 'd', 'f'] := by
      simpa using h
    have hsuf := extAfterLastDot_suffix f.data e hx
    have := hsuf.map (fun c => c.toLower)
    unfold endsInPdf
    simpa [he, show Char.toLower '.' = '.' from by decide] using this

lemma erase_appended_fresh {p : String} {fs : List String} (h : p ∉ fs) :
    (fs ++ [p]).erase p = fs := by
  rw [List.erase_append_right _ h]
  simp

/-! Claim theorems. -/

/-- C1: For every POST /api/process-pdf request: a body over 4MB yields
HTTP 413 with a JSON body containing an error key; otherwise a missing pdf
file part, an empty filename, or a filename that does not end in a .pdf
extension (case-insensitively) yields HTTP 400 with a JSON body containing
an error key; and when the upload passes validation, extraction succeeds
with non-blank text, and generation completes (as it always does), the
response is HTTP 200. -/
theorem process_pdf_status_mapping (env : HandlerEnv) (req : PdfRequest)
    (s : AIService) (fs : List String) :
    (req.contentLength > MAX_CONTENT_LENGTH →
      (process_pdf env req s fs).1.1 = 413 ∧
      hasErrorKey (process_pdf env req s fs).1.2 = true) ∧
    (req.contentLength ≤ MAX_CONTENT_LENGTH →
      (req.hasPdfPart = false ∨ req.filename = "" ∨ ¬ endsInPdf req.filename) →
      (process_pdf env req s fs).1.1 = 400 ∧
      hasErrorKey (process_pdf env req s fs).1.2 = true) ∧
    (∀ text, req.contentLength ≤ MAX_CONTENT_LENGTH → req.hasPdfPart = true →
      req.filename ≠ "" → allowed_file req.filename = true →
      env.collab.extract_text env.filepath = Except.ok text →
      pyStrip text.data ≠ [] →
      (process_pdf env req s fs).1.1 = 200) := by
  refine ⟨?_, ?_, ?_⟩
  · intro h
    simp [process_pdf, h, hasErrorKey, errBody]
  · intro hle hbad
    have hnot : ¬ req.contentLength > MAX_CONTENT_LENGTH := Nat.not_lt.mpr hle
    rcases hbad with h | h | h
    · simp [process_pdf, hnot, h, hasErrorKey, errBody]
    · by_cases hp : req.hasPdfPart = true
      · simp [process_pdf, hnot, hp, h, hasErrorKey, errBody]
      · simp [process_pdf, hnot, hp, hasErrorKey, errBody]
    · have haf : ¬ allowed_file req.filename = true :=
        fun hc => h (allowed_file_endsInPdf _ hc)
      by_cases hp : req.hasPdfPart = true
      · by_cases hfn : req.filename = ""
        · simp [process_pdf, hnot, hp, hfn, hasErrorKey, errBody]
        · simp [process_pdf, hnot, hp, hfn, haf, hasErrorKey, errBody]
      · simp [process_pdf, hnot, hp, hasErrorKey, errBody]
  · intro text hle hp hfn haf hext htrim
    have hnot : ¬ req.contentLength > MAX_CONTENT_LENGTH := Nat.not_lt.mpr hle
    simp [process_pdf, hnot, hp, hfn, haf, hext, htrim]

/-- Witness for process_pdf_status_mapping: an oversized request yields
413, a .txt upload yields 400, and a valid .pdf upload yields 200 on
collaborators that succeed. -/
theorem process_pdf_status_mapping_witness :
    (process_pdf testEnv ⟨5000000, true, "a.pdf"⟩ ⟨none⟩ []).1.1 = 413 ∧
    (process_pdf testEnv ⟨100, true, "a.txt"⟩ ⟨none⟩ []).1.1 = 400 ∧
    (process_pdf testEnv ⟨100, true, "a.pdf"⟩ ⟨none⟩ []).1.1 = 200 :=
  ⟨((process_pdf_status_mapping testEnv ⟨5000000, true, "a.pdf"⟩ ⟨none⟩ []).1
      (by decide)).1,
   ((process_pdf_status_mapping testEnv ⟨100, true, "a.txt"⟩ ⟨none⟩ []).2.1
      (by decide) (Or.inr (Or.inr (by decide)))).1,
   (process_pdf_status_mapping testEnv ⟨100, true, "a.pdf"⟩ ⟨none⟩ []).2.2
      "hello world content" (by decide) rfl (by decide) (by decide) rfl (by decide)⟩

/-- C2: generate_flashcards on the success path parses the model reply line
by line exactly as the specification-side recursive description
specFlashcards states: a stripped Q:-line starts a new record with the
stripped remainder as its question, a stripped A:-line sets the current
answer to its stripped remainder, a later non-empty line while an answer is
in progress is appended to the answer with a single space, a record is
emitted only when both question and answer are non-empty, and at most 8
records are returned in order of appearance. -/
theorem generate_flashcards_parses_reply (c : Collab) (text : String)
    (s : AIService) (n : Nat) (vs : Index) (r : String)
    (hvs : s.vectorStore = some vs) (hllm : c.llm 4 .flashcards = .ok r) :
    (generate_flashcards c text s n).1 = specFlashcards r n := by
  simp [generate_flashcards, hvs, hllm, parse_flashcards_eq_spec]

/-- Witness for generate_flashcards_parses_reply on a service whose vector
store is set and an LLM that replies with one flashcard block. -/
theorem generate_flashcards_parses_reply_witness :
    (generate_flashcards testCollab "doc" ⟨some ["doc"]⟩ 0).1 =
      specFlashcards "Q: q\nA: a" 0 :=
  generate_flashcards_parses_reply testCollab "doc" ⟨some ["doc"]⟩ 0 ["doc"]
    "Q: q\nA: a" rfl rfl

/-- C3: the claim says the note parse removes leading bullet characters,
but the lstrip character set in the source (ai_service.py line 134) is a
mojibake rendering of the bullet: it holds U+00E2, U+20AC, U+00A2 instead
of the bullet U+2022.  A reply line beginning with a real bullet therefore
keeps it (the cleaned line below retains the leading bullet), while a line
beginning with the three mojibake characters has them stripped; the rest of
the claim (per-line strip, keep cleaned lines longer than 10 characters,
order, cap of 10) behaves as described. -/
theorem parse_notes_keeps_real_bullet :
    parse_notes "• machine learning basics\nâ€¢ neural network layers" =
      ["• machine learning basics", "neural network layers"] := by decide

/-- C10: every flashcard returned by the flashcard parse has a non-empty
question, a non-empty answer, and a freshly drawn id, so no two records of
one response share an id. -/
theorem flashcards_nonempty_and_fresh_ids (r : String) (n : Nat) :
    (∀ f ∈ parse_flashcards r n, f.question ≠ "" ∧ f.answer ≠ "") ∧
    (parse_flashcards r n).Pairwise (fun f g => f.id ≠ g.id) := by
  rw [parse_flashcards_eq_spec]
  unfold specFlashcards
  constructor
  · intro f hf
    exact specGo_qa_nonempty _ _ _ _ f (List.take_subset _ _ hf)
  · exact List.Pairwise.sublist (List.take_sublist _ _)
      ((specGo_pairwise _ _ _ _).imp fun h => Nat.ne_of_lt h)

/-- Witness for flashcards_nonempty_and_fresh_ids at a concrete reply. -/
theorem flashcards_nonempty_and_fresh_ids_witness :
    (({ id := 0, question := "q", answer := "a" } : Flashcard).question ≠ "" ∧
      ({ id := 0, question := "q", answer := "a" } : Flashcard).answer ≠ "") ∧
    (parse_flashcards "Q: q\nA: a" 0).Pairwise (fun f g => f.id ≠ g.id) :=
  ⟨(flashcards_nonempty_and_fresh_ids "Q: q\nA: a" 0).1 ⟨0, "q", "a"⟩ (by decide),
   (flashcards_nonempty_and_fresh_ids "Q: q\nA: a" 0).2⟩

/-! Helper lemmas about the service state threaded through the generators. -/

lemma create_vector_store_state_ok (c : Collab) (text : String) (s : AIService)
    (vs : Index) (h : c.from_texts (c.split_text 1000 200 text) = .ok vs) :
    (create_vector_store c text s).2.1 = ⟨some vs⟩ := by
  simp [create_vector_store, h]

lemma generate_summary_state (c : Collab) (text : String) (s : AIService) :
    (generate_summary c text s).2.1 = (create_vector_store c text s).2.1 := by
  unfold generate_summary
  cases hv : (create_vector_store c text s).1 with
  | ok vs =>
    cases hl : c.llm 3 .summary with
    | ok r => simp [hv, hl]
    | error e => simp [hv, hl]
  | error e => simp [hv]

lemma generate_notes_state (c : Collab) (text : String) (s : AIService) :
    (generate_notes c text s).2.1 = s := by
  unfold generate_notes
  cases hv : s.vectorStore with
  | none => simp [hv]
  | some vs =>
    cases hl : c.llm 4 .notes with
    | ok r => simp [hv, hl]
    | error e => simp [hv, hl]

lemma generate_flashcards_state (c : Collab) (text : String) (s : AIService)
    (n : Nat) : (generate_flashcards c text s n).2.1 = s := by
  unfold generate_flashcards
  cases hv : s.vectorStore with
  | none => simp [hv]
  | some vs =>
    cases hl : c.llm 4 .flashcards with
    | ok r => simp [hv, hl]
    | error e => simp [hv, hl]

/-- C5: a successful create_vector_store stores the index built from the
text's chunks in the service's vectorStore field, and after each successful
generate_study_materials the single process-wide vectorStore is the index
of the most recently processed text, whatever the field held before. -/
theorem vector_store_holds_latest_index (c : Collab) (text : String)
    (s : AIService) (n : Nat) (vs : Index) :
    ((create_vector_store c text s).1 = .ok vs →
      (create_vector_store c text s).2.1.vectorStore = some vs ∧
      c.from_texts (c.split_text 1000 200 text) = .ok vs) ∧
    (c.from_texts (c.split_text 1000 200 text) = .ok vs →
      (generate_study_materials c text s n).2.1.vectorStore = some vs) := by
  constructor
  · intro h
    cases hx : c.from_texts (c.split_text 1000 200 text) with
    | ok vs2 =>
      have hv : vs2 = vs := by simpa [create_vector_store, hx] using h
      subst hv
      simp [create_vector_store, hx]
    | error e =>
      simp [create_vector_store, hx] at h
  · intro h
    have hok : (create_vector_store c text s).1 = .ok vs := by
      simp [create_vector_store, h]
    simp only [generate_study_materials, hok, generate_flashcards_state,
      generate_notes_state, generate_summary_state]
    rw [create_vector_store_state_ok c text _ vs h]

/-- Witness for vector_store_holds_latest_index: on succeeding
collaborators a fresh service ends up holding the new index, and a service
holding an old index has it replaced. -/
theorem vector_store_holds_latest_index_witness :
    (create_vector_store testCollab "doc" ⟨none⟩).2.1.vectorStore = some ["doc"] ∧
    (generate_study_materials testCollab "doc" ⟨some ["old"]⟩ 0).2.1.vectorStore =
      some ["doc"] :=
  ⟨((vector_store_holds_latest_index testCollab "doc" ⟨none⟩ 0 ["doc"]).1 rfl).1,
   (vector_store_holds_latest_index testCollab "doc" ⟨some ["old"]⟩ 0 ["doc"]).2 rfl⟩

/-- C7: every request that reaches the point of saving the uploaded file
deletes the saved temporary file under the upload directory before the
handler returns, on the success path and on every error path, leaving the
directory's file list unchanged. -/
theorem upload_file_cleaned_up (env : HandlerEnv) (req : PdfRequest)
    (s : AIService) (fs : List String)
    (hle : req.contentLength ≤ MAX_CONTENT_LENGTH)
    (hp : req.hasPdfPart = true) (hfn : req.filename ≠ "")
    (haf : allowed_file req.filename = true) (hfresh : env.filepath ∉ fs) :
    (process_pdf env req s fs).2.2 = fs := by
  have hnot : ¬ req.contentLength > MAX_CONTENT_LENGTH := Nat.not_lt.mpr hle
  cases hext : env.collab.extract_text env.filepath with
  | error e =>
    simp [process_pdf, hnot, hp, hfn, haf, hext, erase_appended_fresh hfresh]
  | ok text =>
    by_cases htext : pyStrip text.data = []
    · simp [process_pdf, hnot, hp, hfn, haf, hext, htext,
        erase_appended_fresh hfresh]
    · simp [process_pdf, hnot, hp, hfn, haf, hext, htext,
        erase_appended_fresh hfresh]

/-- Witness for upload_file_cleaned_up: a successful request leaves the
upload directory as it found it. -/
theorem upload_file_cleaned_up_witness :
    (process_pdf testEnv ⟨100, true, "a.pdf"⟩ ⟨none⟩ ["uploads/other.pdf"]).2.2 =
      ["uploads/other.pdf"] :=
  upload_file_cleaned_up testEnv ⟨100, true, "a.pdf"⟩ ⟨none⟩ ["uploads/other.pdf"]
    (by decide) rfl (by decide) (by decide) (by decide)

/-- C9: a /api/query request whose body has a message key, sent before any
document upload, is answered without an error status: the absent
vectorStore makes query_response take its fallback path, returning one
record with a fresh id and the fixed message, which the endpoint wraps in a
response field of an HTTP 200 reply. -/
theorem query_before_upload_returns_fallback (c : Collab) (req : QueryRequest)
    (s : AIService) (n : Nat) (hvs : s.vectorStore = none)
    (hm : req.hasMessage = true) :
    query_pdf c req s n =
      ((200, .obj [("response", .arr [.obj [("id", .str (toString n)),
        ("message", .str "Something went wrong")]])]), s) := by
  simp [query_pdf, query_response, hvs, hm]

/-- Witness for query_before_upload_returns_fallback on a fresh service. -/
theorem query_before_upload_returns_fallback_witness :
    query_pdf testCollab ⟨true, "what is this about"⟩ ⟨none⟩ 7 =
      ((200, .obj [("response", .arr [.obj [("id", .str (toString 7)),
        ("message", .str "Something went wrong")]])]), ⟨none⟩) :=
  query_before_upload_returns_fallback testCollab ⟨true, "what is this about"⟩
    ⟨none⟩ 7 rfl rfl

/-- C4 counterexample: when PDF extraction fails, the /api/process-pdf
handler converts the failure to a 500 JSON error payload whose message
embeds the exception text, so the converted message is not the fixed
placeholder Please try again — it does not even contain it — refuting the
claim that every caught failure is converted to a payload with that fixed
placeholder message. -/
theorem handler_error_message_embeds_exception :
    (process_pdf failEnv ⟨100, true, "a.pdf"⟩ ⟨none⟩ []).1 =
      (500, errBody "Failed to process PDF: PDF read error") ∧
    ¬ "Please try again".data <:+: "Failed to process PDF: PDF read error".data :=
  ⟨rfl, by decide⟩

/-- C4 amended: every failure raised inside the generation operations or
the /api/process-pdf handler is caught and converted to a fixed-shape
fallback payload, but the messages are operation-specific rather than one
fixed Please try again placeholder: generate_summary and generate_notes
fall back to their own fixed sentences ending in Please try again.,
generate_flashcards to an error card answering Please try again with a
different document., generate_study_materials to fallback materials whose
summary sentence has no Please try again at all, and the handler to a 500
payload embedding the exception text, which varies with the failure. -/
theorem error_fallbacks_are_operation_specific (c : Collab) (text : String)
    (s : AIService) (n : Nat) (env : HandlerEnv) (req : PdfRequest)
    (fs : List String) (e1 e2 e3 e4 : String)
    (hft : c.from_texts (c.split_text 1000 200 text) = .error e1)
    (hnotes : c.llm 4 .notes = .error e2)
    (hcards : c.llm 4 .flashcards = .error e3)
    (hext : env.collab.extract_text env.filepath = .error e4)
    (hle : req.contentLength ≤ MAX_CONTENT_LENGTH)
    (hp : req.hasPdfPart = true) (hfn : req.filename ≠ "")
    (haf : allowed_file req.filename = true) :
    (generate_summary c text s).1 =
      "Failed to generate summary. Please try again." ∧
    (generate_notes c text s).1 =
      ["Failed to generate notes. Please try again."] ∧
    (generate_flashcards c text s n).1 =
      [⟨n, "Error generating flashcards",
        "Please try again with a different document."⟩] ∧
    (generate_study_materials c text s n).1 =
      ⟨"Failed to generate summary.", ["Failed to generate notes."],
        [⟨n, "Error occurred", "Please try again."⟩]⟩ ∧
    (process_pdf env req s fs).1 =
      (500, errBody ("Failed to process PDF: " ++ e4)) := by
  have hnot : ¬ req.contentLength > MAX_CONTENT_LENGTH := Nat.not_lt.mpr hle
  refine ⟨?_, ?_, ?_, ?_, ?_⟩
  · simp [generate_summary, create_vector_store, hft]
  · cases hv : s.vectorStore with
    | none => simp [generate_notes, hv]
    | some vs => simp [generate_notes, hv, hnotes]
  · cases hv : s.vectorStore with
    | none => simp [generate_flashcards, hv]
    | some vs => simp [generate_flashcards, hv, hcards]
  · simp [generate_study_materials, create_vector_store, hft]
  · simp [process_pdf, hnot, hp, hfn, haf, hext]

/-- Witness for error_fallbacks_are_operation_specific on collaborators
whose every external call fails. -/
theorem error_fallbacks_witness :
    (generate_summary failCollab "doc" ⟨none⟩).1 =
      "Failed to generate summary. Please try again." ∧
    (generate_notes failCollab "doc" ⟨none⟩).1 =
      ["Failed to generate notes. Please try again."] ∧
    (generate_flashcards failCollab "doc" ⟨none⟩ 0).1 =
      [⟨0, "Error generating flashcards",
        "Please try again with a different document."⟩] ∧
    (generate_study_materials failCollab "doc" ⟨none⟩ 0).1 =
      ⟨"Failed to generate summary.", ["Failed to generate notes."],
        [⟨0, "Error occurred", "Please try again."⟩]⟩ ∧
    (process_pdf failEnv ⟨100, true, "b.pdf"⟩ ⟨none⟩ []).1 =
      (500, errBody ("Failed to process PDF: " ++ "PDF read error")) :=
  error_fallbacks_are_operation_specific failCollab "doc" ⟨none⟩ 0 failEnv
    ⟨100, true, "b.pdf"⟩ [] "embedding service down" "model API error"
    "model API error" "PDF read error" rfl rfl rfl rfl (by decide) rfl
    (by decide) (by decide)

/-! Helper lemmas about the call traces of the operations. -/

/-- Every split call in a trace uses chunk_size 1000 and chunk_overlap
200. -/
def callChunkOk : Call → Bool
  | .split cs co => cs == 1000 && co == 200
  | .retrieve _ => true

/-- Every retrieval call in a trace uses the given k. -/
def callRetrieveOk (k : Nat) : Call → Bool
  | .retrieve k2 => k2 == k
  | .split _ _ => true

lemma create_trace_all (c : Collab) (text : String) (s : AIService)
    (p : Call → Bool) (hsplit : p (.split 1000 200) = true) :
    (create_vector_store c text s).2.2.all p = true := by
  cases hx : c.from_texts (c.split_text 1000 200 text) with
  | ok vs => simp [create_vector_store, hx, hsplit]
  | error e => simp [create_vector_store, hx, hsplit]

lemma summary_trace_all (c : Collab) (text : String) (s : AIService)
    (p : Call → Bool) (hsplit : p (.split 1000 200) = true)
    (hr : p (.retrieve 3) = true) :
    (generate_summary c text s).2.2.all p = true := by
  have hc := create_trace_all c text s p hsplit
  unfold generate_summary
  cases hv : (create_vector_store c text s).1 with
  | ok vs =>
    cases hl : c.llm 3 .summary with
    | ok r => simp [hv, hl, List.all_append, hc, hr]
    | error e => simp [hv, hl, List.all_append, hc, hr]
  | error e => simp [hv, hc]

lemma notes_trace_all (c : Collab) (text : String) (s : AIService)
    (p : Call → Bool) (hr : p (.retrieve 4) = true) :
    (generate_notes c text s).2.2.all p = true := by
  unfold generate_notes
  cases hv : s.vectorStore with
  | none => simp [hv]
  | some vs =>
    cases hl : c.llm 4 .notes with
    | ok r => simp [hv, hl, hr]
    | error e => simp [hv, hl, hr]

lemma flashcards_trace_all (c : Collab) (text : String) (s : AIService)
    (n : Nat) (p : Call → Bool) (hr : p (.retrieve 4) = true) :
    (generate_flashcards c text s n).2.2.all p = true := by
  unfold generate_flashcards
  cases hv : s.vectorStore with
  | none => simp [hv]
  | some vs =>
    cases hl : c.llm 4 .flashcards with
    | ok r => simp [hv, hl, hr]
    | error e => simp [hv, hl, hr]

lemma query_trace_all (c : Collab) (qtext : String) (s : AIService) (n : Nat)
    (p : Call → Bool) (hr : p (.retrieve 4) = true) :
    (query_response c qtext s n).2.2.all p = true := by
  unfold query_response
  cases hv : s.vectorStore with
  | none => simp [hv]
  | some vs =>
    cases hl : c.llm 4 (.userQuery qtext) with
    | ok r => simp [hv, hl, hr]
    | error e => simp [hv, hl, hr]

lemma materials_trace_all (c : Collab) (text : String) (s : AIService)
    (n : Nat) (p : Call → Bool) (hsplit : p (.split 1000 200) = true)
    (hr3 : p (.retrieve 3) = true) (hr4 : p (.retrieve 4) = true) :
    (generate_study_materials c text s n).2.2.all p = true := by
  have hc := create_trace_all c text s p hsplit
  unfold generate_study_materials
  cases hv : (create_vector_store c text s).1 with
  | error e => simp [hv, hc]
  | ok vs =>
    simp [hv, List.all_append, hc, summary_trace_all _ _ _ p hsplit hr3,
      notes_trace_all _ _ _ p hr4, flashcards_trace_all _ _ _ _ p hr4]

/-- C6: the chunking and retrieval parameters are constants independent of
the input: every text-splitter call in any operation's trace uses
chunk_size 1000 and chunk_overlap 200, every retrieval made by
generate_summary uses k = 3, and every retrieval made by generate_notes,
generate_flashcards and query_response uses k = 4. -/
theorem chunking_and_retrieval_constants (c : Collab) (text qtext : String)
    (s : AIService) (n : Nat) :
    (create_vector_store c text s).2.2.all callChunkOk = true ∧
    (generate_summary c text s).2.2.all callChunkOk = true ∧
    (generate_summary c text s).2.2.all (callRetrieveOk 3) = true ∧
    (generate_notes c text s).2.2.all (callRetrieveOk 4) = true ∧
    (generate_flashcards c text s n).2.2.all (callRetrieveOk 4) = true ∧
    (query_response c qtext s n).2.2.all (callRetrieveOk 4) = true ∧
    (generate_study_materials c text s n).2.2.all callChunkOk = true :=
  ⟨create_trace_all c text s callChunkOk (by decide),
   summary_trace_all c text s callChunkOk (by decide) (by decide),
   summary_trace_all c text s (callRetrieveOk 3) (by decide) (by decide),
   notes_trace_all c text s (callRetrieveOk 4) (by decide),
   flashcards_trace_all c text s n (callRetrieveOk 4) (by decide),
   query_trace_all c qtext s n (callRetrieveOk 4) (by decide),
   materials_trace_all c text s n callChunkOk (by decide) (by decide)
     (by decide)⟩

/-- C8: every HTTP 200 response of /api/process-pdf has a body that is a
JSON object with exactly the keys summary, notes and flashcards, where
summary is a string, notes is an ordered array of strings, and each
flashcard is an object with exactly the keys id, question and answer. -/
theorem success_response_shape (env : HandlerEnv) (req : PdfRequest)
    (s : AIService) (fs : List String)
    (h200 : (process_pdf env req s fs).1.1 = 200) :
    ∃ m : StudyMaterials,
      (process_pdf env req s fs).1.2 =
        JVal.obj
          [("summary", JVal.str m.summary),
           ("notes", JVal.arr (m.notes.map JVal.str)),
           ("flashcards", JVal.arr (m.flashcards.map (fun f =>
             JVal.obj [("id", JVal.str (toString f.id)),
                       ("question", JVal.str f.question),
                       ("answer", JVal.str f.answer)])))] := by
  by_cases h1 : req.contentLength > MAX_CONTENT_LENGTH
  · simp [process_pdf, h1] at h200
  by_cases h2 : req.hasPdfPart = true
  case neg => simp [process_pdf, h1, h2] at h200
  by_cases h3 : req.filename = ""
  case pos => simp [process_pdf, h1, h2, h3] at h200
  by_cases h4 : allowed_file req.filename = true
  case neg => simp [process_pdf, h1, h2, h3, h4] at h200
  cases hext : env.collab.extract_text env.filepath with
  | error e => simp [process_pdf, h1, h2, h3, h4, hext] at h200
  | ok text =>
    by_cases h5 : pyStrip text.data = []
    · simp [process_pdf, h1, h2, h3, h4, hext, h5] at h200
    · refine ⟨(generate_study_materials env.collab text s env.idStart).1, ?_⟩
      simp [process_pdf, h1, h2, h3, h4, hext, h5, materialsToJson]

/-- Witness for success_response_shape at a concrete successful request. -/
theorem success_response_shape_witness :
    ∃ m : StudyMaterials,
      (process_pdf testEnv ⟨100, true, "a.pdf"⟩ ⟨none⟩ []).1.2 =
        JVal.obj
          [("summary", JVal.str m.summary),
           ("notes", JVal.arr (m.notes.map JVal.str)),
           ("flashcards", JVal.arr (m.flashcards.map (fun f =>
             JVal.obj [("id", JVal.str (toString f.id)),
                       ("question", JVal.str f.question),
                       ("answer", JVal.str f.answer)])))] :=
  success_response_shape testEnv ⟨100, true, "a.pdf"⟩ ⟨none⟩ [] (by decide)

end StudyGen
